import Mathlib

/-!
Facebook Analytics dashboard: view-state model.

A shallow embedding of the data-fetching and view-state logic of

* `src/facebook-analytics/src/components/dashboard/index.jsx` (`SimpleDashboard`)
* `src/facebook-analytics/src/hooks/useFacebookData.js` (`useFacebookData`)

React state is an explicit record; every `setX(v)` overwrites one field.
An `async` function is a program in an exception-over-state monad, so that
`try / catch / finally` keeps the state written before a `throw`.
What `await fetch(url)` settles to is supplied by the environment as a
`FetchResult`.  For interleavings the functions are cut at their `await`
and scheduled by a step function over the list of in-flight requests.
-/

namespace FacebookAnalytics

/-! ## JavaScript values and errors -/

/-- The JavaScript values a decoded numeric field can hold here: absent
(`undefined`), JSON `null`, a number (the exact value of the double) or a
string. -/
inductive JsValue where
  | undefined
  | null
  | number (x : ℚ)
  | string (s : String)
deriving DecidableEq

/-- A thrown JavaScript `Error`; only its `message` is ever read. -/
structure JsError where
  message : String
deriving DecidableEq

/-- JavaScript truthiness, as used by `||`, `?:` and `if`. -/
def JsValue.truthy : JsValue → Bool
  | .undefined => false
  | .null => false
  | .number x => decide (x ≠ 0)
  | .string s => decide (s ≠ "")

/-- The JavaScript operator `a || b`. -/
def jsOr (a b : JsValue) : JsValue :=
  if a.truthy then a else b

/-! ## Data model (field names as on the wire) -/

/-- One element of the `/posts` response. -/
structure Post where
  post_id : String
  content : String
  created_time : String
  total_comments : JsValue
  average_sentiment : JsValue
  sentiment_sum : JsValue
deriving DecidableEq

/-- One element of the `/posts/:id/history` response. -/
structure HistoryPoint where
  last_updated : String
  average_sentiment : JsValue
deriving DecidableEq

/-! ## The environment: what a `fetch` settles to -/

/-- A `Response` object: its `ok` flag and what `await response.json()`
gives (the decoded body, or the error thrown by the decoder). -/
structure Response (α : Type) where
  ok : Bool
  json : Except JsError α

/-- What `await fetch(url)` settles to: the promise rejects (network
error) or fulfils with a response. -/
inductive FetchResult (α : Type) where
  | rejected (err : JsError)
  | fulfilled (response : Response α)

/-- A response with a success status whose body decodes to `data`. -/
def FetchResult.success {α : Type} (data : α) : FetchResult α :=
  .fulfilled { ok := true, json := .ok data }

/-- A response with a non-success HTTP status (its body is never read). -/
def FetchResult.badStatus {α : Type} (body : Except JsError α) : FetchResult α :=
  .fulfilled { ok := false, json := body }

/-- A response with a success status whose body fails to decode. -/
def FetchResult.badJson {α : Type} (err : JsError) : FetchResult α :=
  .fulfilled { ok := true, json := .error err }

/-! ## The monad of component code -/

/-- Component code over a state `σ`: exceptions layered over state, so a
`catch` or `finally` block sees the writes made before the `throw`. -/
abbrev Js (σ : Type) := ExceptT JsError (StateM σ)

/-- Final state of running `m` from `s`. -/
def Js.exec {σ α : Type} (m : Js σ α) (s : σ) : σ :=
  (m.run.run s).2

/-- Whether running `m` from `s` ends normally or with an escaped exception. -/
def Js.result {σ α : Type} (m : Js σ α) (s : σ) : Except JsError α :=
  (m.run.run s).1

/-- The expression `await fetch(url)` once the environment has settled it. -/
def FetchResult.await {σ α : Type} : FetchResult α → Js σ (Response α)
  | .rejected err => throw err
  | .fulfilled response => pure response

/-- The expression `await response.json()`. -/
def Response.awaitJson {σ α : Type} (response : Response α) : Js σ α :=
  match response.json with
  | .error err => throw err
  | .ok data => pure data

/-! ## `SimpleDashboard` (components/dashboard/index.jsx) -/

/-- The five `useState` cells of `SimpleDashboard`, plus the browser
console that `console.error` writes to. -/
structure Dashboard where
  posts : List Post
  postHistory : List HistoryPoint
  loading : Bool
  error : Option String
  selectedPost : Option Post
  console : List (String × JsError)
deriving DecidableEq

namespace SimpleDashboard

/-- The module constant `API_URL`. -/
def API_URL : String := "https://jktob6rblf.execute-api.ap-southeast-1.amazonaws.com/"

/-- The template literal of line 16. -/
def postsUrl : String := API_URL ++ "/posts"

/-- The template literal of line 31. -/
def historyUrl (postId : String) : String := API_URL ++ "/posts/" ++ postId ++ "/history"

/-- The `useState` initial values, lines 7-11. -/
def initial : Dashboard :=
  { posts := [], postHistory := [], loading := true, error := none,
    selectedPost := none, console := [] }

def setPosts (v : List Post) : Js Dashboard Unit :=
  modify fun d => { d with posts := v }

def setPostHistory (v : List HistoryPoint) : Js Dashboard Unit :=
  modify fun d => { d with postHistory := v }

def setLoading (v : Bool) : Js Dashboard Unit :=
  modify fun d => { d with loading := v }

def setError (v : Option String) : Js Dashboard Unit :=
  modify fun d => { d with error := v }

def setSelectedPost (v : Option Post) : Js Dashboard Unit :=
  modify fun d => { d with selectedPost := v }

/-- The call `console.error(label, err)`. -/
def consoleError (label : String) (err : JsError) : Js Dashboard Unit :=
  modify fun d => { d with console := d.console ++ [(label, err)] }

/-- The function `fetchPosts`, lines 13-27, run to completion; `r` is what
`await fetch(postsUrl)` settles to. -/
def fetchPosts (r : FetchResult (List Post)) : Js Dashboard Unit := do
  try
    setLoading true
    let response ← r.await
    if !response.ok then
      throw (JsError.mk "Failed to fetch posts")
    let data ← response.awaitJson
    setPosts data
  catch err =>
    setError (some err.message)
  finally
    setLoading false

/-- The function `fetchPostHistory`, lines 29-41, run to completion; `r` is
what `await fetch(historyUrl postId)` settles to. -/
def fetchPostHistory (r : FetchResult (List HistoryPoint)) : Js Dashboard Unit := do
  try
    let response ← r.await
    if !response.ok then
      throw (JsError.mk "Failed to fetch post history")
    let data ← response.awaitJson
    setPostHistory data
  catch err =>
    consoleError "Error fetching history:" err
    setPostHistory []

/-- The function `handlePostSelect`, lines 43-46, together with the later
completion of the history fetch it starts (no other event in between). -/
def handlePostSelect (post : Post) (r : FetchResult (List HistoryPoint)) :
    Js Dashboard Unit := do
  setSelectedPost (some post)
  fetchPostHistory r

/-! ### The functions cut at their `await` -/

/-- The part of `fetchPosts` before its first `await`: line 15.  The
request of line 16 is in flight afterwards. -/
def fetchPostsStart : Js Dashboard Unit :=
  setLoading true

/-- The part of `fetchPosts` from the settling of its request on, lines
16-26.  No state is written between `await fetch` and `await
response.json()`, so the two are settled together. -/
def fetchPostsResume (r : FetchResult (List Post)) : Js Dashboard Unit := do
  try
    let response ← r.await
    if !response.ok then
      throw (JsError.mk "Failed to fetch posts")
    let data ← response.awaitJson
    setPosts data
  catch err =>
    setError (some err.message)
  finally
    setLoading false

/-! ### What is rendered -/

/-- Which of the three `return` statements of the component is taken. -/
inductive Screen where
  | spinner
  | errorScreen (message : String)
  | main
deriving DecidableEq

/-- The two early returns `if (loading)` and `if (error)`, lines 52-77; a
string is truthy when it is not empty. -/
def screen (d : Dashboard) : Screen :=
  if d.loading then .spinner
  else
    match d.error with
    | some message => if message ≠ "" then .errorScreen message else .main
    | none => .main

/-- What React puts on the page for a JSX child `{value}`: nothing for
`undefined` and `null`, the number for a number, the text for a string. -/
inductive ReactChild where
  | empty
  | number (x : ℚ)
  | text (s : String)
deriving DecidableEq

/-- The JSX child `{value}`. -/
def renderChild : JsValue → ReactChild
  | .undefined => .empty
  | .null => .empty
  | .number x => .number x
  | .string s => .text s

/-- The expression `value?.toFixed(digits)`: short-circuits to `undefined`
on a missing value, calls `Number.prototype.toFixed` (the parameter
`toFixed`) on a number, and throws a `TypeError` on a string, which has no
such method. -/
def optionalToFixed (toFixed : ℚ → ℕ → String) (value : JsValue) (digits : ℕ) :
    Except JsError JsValue :=
  match value with
  | .undefined => .ok .undefined
  | .null => .ok .undefined
  | .number x => .ok (.string (toFixed x digits))
  | .string _ => .error (JsError.mk "toFixed is not a function")

/-- The JSX child `{value?.toFixed(1) || '0.0'}` of lines 138 and 142. -/
def sentimentText (toFixed : ℚ → ℕ → String) (value : JsValue) : Except JsError ReactChild := do
  let fixed ← optionalToFixed toFixed value 1
  pure (renderChild (jsOr fixed (.string "0.0")))

/-- The comment count of a list item, line 117: `{post.total_comments}`. -/
def listItemComments (post : Post) : ReactChild :=
  renderChild post.total_comments

/-- The three statistics cards of the selected post, lines 131-144. -/
structure StatCards where
  total_comments : ReactChild
  average_sentiment : ReactChild
  sentiment_sum : ReactChild
deriving DecidableEq

/-- The three statistics cards, lines 131-144, in source order. -/
def statCards (toFixed : ℚ → ℕ → String) (selectedPost : Post) : Except JsError StatCards := do
  let total := renderChild selectedPost.total_comments
  let average ← sentimentText toFixed selectedPost.average_sentiment
  let sum ← sentimentText toFixed selectedPost.sentiment_sum
  pure { total_comments := total, average_sentiment := average, sentiment_sum := sum }

/-- One element of the `data` array handed to `LineChart`. -/
structure ChartPoint where
  date : String
  sentiment : JsValue
deriving DecidableEq

/-- The `data` prop of `LineChart`, lines 152-155; `toLocaleString` stands
for `t ↦ new Date(t).toLocaleString()`, which depends on the locale. -/
def chartData (toLocaleString : String → String) (postHistory : List HistoryPoint) :
    List ChartPoint :=
  postHistory.map fun item =>
    { date := toLocaleString item.last_updated, sentiment := item.average_sentiment }

/-! ### Scheduling: events and in-flight requests -/

/-- Which `async` function is suspended on a request. -/
inductive Awaiter where
  | fetchPosts
  | fetchPostHistory
deriving DecidableEq

/-- A request that has been issued and has not settled yet. -/
structure Request where
  url : String
  awaiter : Awaiter
deriving DecidableEq

/-- The mounted component: its state and its in-flight requests, oldest
first. -/
structure App where
  dash : Dashboard
  inflight : List Request
deriving DecidableEq

/-- The component as first rendered, before the mount effect has run. -/
def App.initial : App :=
  { dash := SimpleDashboard.initial, inflight := [] }

/-- A call of `fetchPosts()` up to its `await`. -/
def App.fetchPosts (a : App) : App :=
  { dash := fetchPostsStart.exec a.dash,
    inflight := a.inflight ++ [{ url := postsUrl, awaiter := .fetchPosts }] }

/-- A call of `handlePostSelect(post)`, lines 43-46: `setSelectedPost(post)`,
then `fetchPostHistory(post.post_id)` runs up to its `await`. -/
def App.handlePostSelect (post : Post) (a : App) : App :=
  { dash := (setSelectedPost (some post)).exec a.dash,
    inflight := a.inflight ++ [{ url := historyUrl post.post_id, awaiter := .fetchPostHistory }] }

/-- What can happen to the mounted component. -/
inductive Event where
  /-- The effect of lines 48-50 runs `fetchPosts()`. -/
  | mount
  /-- A click on the retry button (line 69) or the refresh button (line 85). -/
  | clickFetchPosts
  /-- A click on the list item of `post` (line 108). -/
  | clickPost (post : Post)
  /-- The in-flight request number `i`, one of `fetchPosts`, settles. -/
  | postsSettled (i : ℕ) (r : FetchResult (List Post))
  /-- The in-flight request number `i`, one of `fetchPostHistory`, settles. -/
  | historySettled (i : ℕ) (r : FetchResult (List HistoryPoint))

/-- One event.  A button can be clicked only on the screen that shows it,
and a request can settle only while it is in flight; otherwise `none`. -/
def step (a : App) : Event → Option App
  | .mount => some a.fetchPosts
  | .clickFetchPosts =>
    if screen a.dash = .spinner then none else some a.fetchPosts
  | .clickPost post =>
    if screen a.dash = .main ∧ post ∈ a.dash.posts then some (a.handlePostSelect post) else none
  | .postsSettled i r =>
    match a.inflight[i]? with
    | some { url := _, awaiter := .fetchPosts } =>
      some { dash := (fetchPostsResume r).exec a.dash, inflight := a.inflight.eraseIdx i }
    | _ => none
  | .historySettled i r =>
    match a.inflight[i]? with
    | some { url := _, awaiter := .fetchPostHistory } =>
      some { dash := (fetchPostHistory r).exec a.dash, inflight := a.inflight.eraseIdx i }
    | _ => none

/-- A sequence of events, oldest first. -/
def run (a : App) : List Event → Option App
  | [] => some a
  | e :: es => (step a e).bind fun b => run b es

end SimpleDashboard

/-! ## `useFacebookData` (hooks/useFacebookData.js) -/

/-- The three `useState` cells of the hook. -/
structure HookState where
  posts : List Post
  loading : Bool
  error : Option String
deriving DecidableEq

namespace useFacebookData

/-- The module constant `API_URL`. -/
def API_URL : String := "https://jktob6rblf.execute-api.ap-southeast-1.amazonaws.com/"

/-- The template literal of line 14. -/
def postsUrl : String := API_URL ++ "/posts"

/-- The `useState` initial values, lines 7-9. -/
def initial : HookState :=
  { posts := [], loading := true, error := none }

def setPosts (v : List Post) : Js HookState Unit :=
  modify fun d => { d with posts := v }

def setLoading (v : Bool) : Js HookState Unit :=
  modify fun d => { d with loading := v }

def setError (v : Option String) : Js HookState Unit :=
  modify fun d => { d with error := v }

/-- The function `fetchPosts`, lines 11-25, run to completion; `r` is what
`await fetch(postsUrl)` settles to. -/
def fetchPosts (r : FetchResult (List Post)) : Js HookState Unit := do
  try
    setLoading true
    let response ← r.await
    if !response.ok then
      throw (JsError.mk "Failed to fetch posts")
    let data ← response.awaitJson
    setPosts data
  catch err =>
    setError (some err.message)
  finally
    setLoading false

/-- The part of `fetchPosts` before its first `await`: line 13. -/
def fetchPostsStart : Js HookState Unit :=
  setLoading true

/-- The function `refreshData`, lines 31-33, with the `fetchPosts` it
starts run to completion. -/
def refreshData (r : FetchResult (List Post)) : Js HookState Unit :=
  fetchPosts r

end useFacebookData

/-! ## Failing fetches -/

/-- The three ways a fetch fails: the network (the `fetch` promise
rejects), a non-success HTTP status, or a body that does not decode. -/
inductive FetchFailure (α : Type) where
  | network (err : JsError)
  | status (body : Except JsError α)
  | decode (err : JsError)

/-- The settled fetch of a failure. -/
def FetchFailure.toResult {α : Type} : FetchFailure α → FetchResult α
  | .network err => .rejected err
  | .status body => .badStatus body
  | .decode err => .badJson err

/-! ## A sample runtime and sample data -/

/-- A `Number.prototype.toFixed` for the examples, on exact values of
magnitude below `10 ^ 21`: the integer `n` nearest to `|x| * 10 ^ digits`
(the larger one on a tie), written with `digits` decimals and the sign of
`x`.  The theorems below hold for every `toFixed`, not only this one. -/
def toFixedDecimal (x : ℚ) (digits : ℕ) : String :=
  let sign := if x.num < 0 then "-" else ""
  let n := (2 * x.num.natAbs * 10 ^ digits + x.den) / (2 * x.den)
  let m := Nat.toDigits 10 n
  let m := if m.length ≤ digits then List.replicate (digits + 1 - m.length) '0' ++ m else m
  if digits = 0 then sign ++ String.mk m
  else sign ++ String.mk (m.take (m.length - digits)) ++ "." ++ String.mk (m.drop (m.length - digits))

/-- The number 7.2, that is 36/5 in lowest terms. -/
def sevenPointTwo : ℚ :=
  { num := 36, den := 5, den_nz := by decide, reduced := by decide }

/-- The post of the example scenario. -/
def examplePost : Post :=
  { post_id := "1", content := "hi", created_time := "2024-01-01T00:00:00Z",
    total_comments := .number 5, average_sentiment := .number sevenPointTwo,
    sentiment_sum := .number 36 }

/-- The two-point history of the example scenario. -/
def exampleHistory : List HistoryPoint :=
  [{ last_updated := "2024-01-01T00:00:00Z", average_sentiment := .number 7 },
   { last_updated := "2024-01-02T00:00:00Z", average_sentiment := .number sevenPointTwo }]

/-- A second post, with a different history. -/
def otherPost : Post :=
  { post_id := "2", content := "bye", created_time := "2024-01-03T00:00:00Z",
    total_comments := .number 1, average_sentiment := .number 3,
    sentiment_sum := .number 3 }

/-- The history of the second post. -/
def otherHistory : List HistoryPoint :=
  [{ last_updated := "2024-01-03T00:00:00Z", average_sentiment := .number 3 }]

/-- A post whose three numeric fields are all missing from the wire. -/
def barePost : Post :=
  { post_id := "3", content := "new", created_time := "2024-01-04T00:00:00Z",
    total_comments := .undefined, average_sentiment := .undefined,
    sentiment_sum := .null }

/-! ## Basic facts -/

open SimpleDashboard

theorem getElem?_append_pair_snd {α : Type} (l : List α) (x y : α) :
    (l ++ [x, y])[l.length + 1]? = some y := by
  rw [List.getElem?_append_right (by omega)]
  simp

theorem eraseIdx_append_pair_snd {α : Type} (l : List α) (x y : α) :
    (l ++ [x, y]).eraseIdx (l.length + 1) = l ++ [x] := by
  rw [List.eraseIdx_append_of_length_le (by omega)]
  simp

theorem getElem?_append_single {α : Type} (l : List α) (x : α) :
    (l ++ [x])[l.length]? = some x := by
  simp

theorem eraseIdx_append_single {α : Type} (l : List α) (x : α) :
    (l ++ [x]).eraseIdx l.length = l := by
  rw [List.eraseIdx_append_of_length_le (by omega)]
  simp

/-- Two post ids give the same history URL only when they are equal. -/
theorem historyUrl_injective (p q : String) (h : historyUrl p = historyUrl q) : p = q := by
  have h2 := congrArg String.data h
  simp only [historyUrl, String.data_append, List.append_assoc] at h2
  exact String.ext (List.append_cancel_right (List.append_cancel_left (List.append_cancel_left h2)))

/-- Cutting `fetchPosts` at its `await` does not change what it computes. -/
theorem fetchPosts_eq_start_then_resume (r : FetchResult (List Post)) (d : Dashboard) :
    (fetchPosts r).exec d = (fetchPostsResume r).exec (fetchPostsStart.exec d) := by
  rcases r with e | ⟨ok, j⟩
  · rfl
  · cases ok <;> cases j <;> rfl

/-- No exception escapes `fetchPosts`. -/
theorem fetchPosts_result (r : FetchResult (List Post)) (d : Dashboard) :
    (fetchPosts r).result d = .ok () := by
  rcases r with e | ⟨ok, j⟩
  · rfl
  · cases ok <;> cases j <;> rfl

/-- No exception escapes `fetchPostHistory`. -/
theorem fetchPostHistory_result (r : FetchResult (List HistoryPoint)) (d : Dashboard) :
    (fetchPostHistory r).result d = .ok () := by
  rcases r with e | ⟨ok, j⟩
  · rfl
  · cases ok <;> cases j <;> rfl

/-- On success `fetchPosts` writes `posts` and `loading`, nothing else. -/
theorem fetchPosts_success_exec (data : List Post) (d : Dashboard) :
    (fetchPosts (.success data)).exec d = { d with posts := data, loading := false } := by
  rfl

/-- The hook and the component run the same `fetchPosts` on the three
cells they share. -/
theorem hook_fetchPosts_agrees (r : FetchResult (List Post)) (d : Dashboard) :
    (useFacebookData.fetchPosts r).exec
        { posts := d.posts, loading := d.loading, error := d.error } =
      { posts := ((fetchPosts r).exec d).posts, loading := ((fetchPosts r).exec d).loading,
        error := ((fetchPosts r).exec d).error } := by
  rcases r with e | ⟨ok, j⟩
  · rfl
  · cases ok <;> cases j <;> rfl

/-- The sample `toFixed` on the numbers of the example scenario. -/
theorem toFixedDecimal_samples :
    toFixedDecimal sevenPointTwo 1 = "7.2" ∧ toFixedDecimal 36 1 = "36.0" ∧
      toFixedDecimal 0 1 = "0.0" := by
  decide

/-! ## The claims -/

/-- C1 (divergence): a successful `fetchPosts` does not clear `error`.
After the initial load fails with a non-success status and the retry
button is clicked, a successful response of one post leaves `posts` equal
to that list and `loading` false, but `error` is still the message of the
earlier failure, so the error screen with its retry button is shown
again.  The hook's `fetchPosts` keeps the earlier error in the same way. -/
theorem fetchPosts_success_keeps_earlier_error :
    (run App.initial
        [.mount, .postsSettled 0 (.badStatus (.ok [])), .clickFetchPosts,
          .postsSettled 0 (.success [examplePost])]).map
        (fun a => (a.dash.posts, a.dash.loading, a.dash.error, screen a.dash)) =
      some ([examplePost], false, some "Failed to fetch posts",
        Screen.errorScreen "Failed to fetch posts") ∧
    (useFacebookData.fetchPosts (.success [examplePost])).exec
        ((useFacebookData.fetchPosts (.badStatus (.ok []))).exec useFacebookData.initial) =
      { posts := [examplePost], loading := false, error := some "Failed to fetch posts" } := by
  decide

/-- C2 (counterexample): the initial `/posts` fetch is rejected with an
error whose message is the empty string.  Afterwards `error` is the empty
string, not a non-empty message, and as the empty string is falsy the main
screen is shown, not the error screen.  The hook stores the empty message
in the same way. -/
theorem fetchPosts_failure_empty_message_counterexample :
    (run App.initial [.mount, .postsSettled 0 (.rejected { message := "" })]).map
        (fun a => (a.dash.posts, a.dash.loading, a.dash.error, screen a.dash)) =
      some ([], false, some "", Screen.main) ∧
    (useFacebookData.fetchPosts (.rejected { message := "" })).exec useFacebookData.initial =
      { posts := [], loading := false, error := some "" } := by
  decide

/-- C2 (amended): when the `/posts` fetch fails (network error, non-success
status or decode failure), after `fetchPosts` `posts` is unchanged, `error`
is set (it is not none), `loading` is false, and `selectedPost` and
`postHistory` are unchanged.  The value of `error` is the message of the
error thrown: the text 'Failed to fetch posts' for a non-success status,
and for a network error or a decode failure the message of the error that
`fetch` or `response.json()` threw, whatever it is.  The same holds for the
hook on its three cells. -/
theorem fetchPosts_failure_sets_error_keeps_posts (d : Dashboard) (h : HookState)
    (f : FetchFailure (List Post)) (err : JsError) (body : Except JsError (List Post)) :
    ((fetchPosts f.toResult).exec d).posts = d.posts ∧
    ((fetchPosts f.toResult).exec d).error ≠ none ∧
    ((fetchPosts f.toResult).exec d).loading = false ∧
    ((fetchPosts f.toResult).exec d).selectedPost = d.selectedPost ∧
    ((fetchPosts f.toResult).exec d).postHistory = d.postHistory ∧
    ((fetchPosts (FetchFailure.network err).toResult).exec d).error = some err.message ∧
    ((fetchPosts (FetchFailure.status body).toResult).exec d).error =
      some "Failed to fetch posts" ∧
    ((fetchPosts (FetchFailure.decode err).toResult).exec d).error = some err.message ∧
    ((useFacebookData.fetchPosts f.toResult).exec h).posts = h.posts ∧
    ((useFacebookData.fetchPosts f.toResult).exec h).error ≠ none ∧
    ((useFacebookData.fetchPosts f.toResult).exec h).loading = false ∧
    ((useFacebookData.fetchPosts (FetchFailure.network err).toResult).exec h).error =
      some err.message ∧
    ((useFacebookData.fetchPosts (FetchFailure.status body).toResult).exec h).error =
      some "Failed to fetch posts" ∧
    ((useFacebookData.fetchPosts (FetchFailure.decode err).toResult).exec h).error =
      some err.message := by
  cases f <;>
    exact ⟨rfl, fun hn => Option.noConfusion hn, rfl, rfl, rfl, rfl, rfl, rfl, rfl,
      fun hn => Option.noConfusion hn, rfl, rfl, rfl, rfl⟩

/-- C3 (counterexample): the posts load, post "1" is clicked and then post
"2"; the history of "2" settles first and the history of "1" last.  The
component ends with post "2" selected and the history of post "1"
displayed. -/
theorem stale_history_overwrites_counterexample :
    (run App.initial
        [.mount, .postsSettled 0 (.success [examplePost, otherPost]), .clickPost examplePost,
          .clickPost otherPost, .historySettled 1 (.success otherHistory),
          .historySettled 0 (.success exampleHistory)]).map
        (fun a => (a.dash.selectedPost, a.dash.postHistory)) =
      some (some otherPost, exampleHistory) ∧
    exampleHistory ≠ otherHistory ∧
    examplePost.post_id ≠ otherPost.post_id := by
  decide

/-- C3 (amended): a history response that settles replaces `postHistory`
with its own list whichever post is selected.  So after
`handlePostSelect(A)` and `handlePostSelect(B)`, when the response for `B`
settles (in any way) and the response for `A` settles after it with the
list `hA`, `postHistory` is `hA` and `selectedPost` is `B`. -/
theorem history_is_last_settled_response (a : App) (postA postB : Post)
    (hA : List HistoryPoint) (rB : FetchResult (List HistoryPoint)) (d : Dashboard) :
    (run ((a.handlePostSelect postA).handlePostSelect postB)
        [.historySettled (a.inflight.length + 1) rB,
          .historySettled a.inflight.length (.success hA)]).map
        (fun b => (b.dash.selectedPost, b.dash.postHistory)) =
      some (some postB, hA) ∧
    ((fetchPostHistory (.success hA)).exec d).postHistory = hA ∧
    ((fetchPostHistory (.success hA)).exec d).selectedPost = d.selectedPost := by
  refine ⟨?_, rfl, rfl⟩
  simp only [run, step, App.handlePostSelect, List.append_assoc, List.singleton_append,
    getElem?_append_pair_snd, eraseIdx_append_pair_snd, getElem?_append_single,
    eraseIdx_append_single, Option.bind_some, Option.some_bind, Option.map_some']
  rcases rB with e | ⟨ok, j⟩
  · rfl
  · cases ok <;> cases j <;> rfl

/-- C4: when the history fetch fails (network error, non-success status or
decode failure), after `fetchPostHistory` `postHistory` is the empty list,
`error`, `loading`, `posts` and `selectedPost` are unchanged, and no
exception escapes. -/
theorem fetchPostHistory_failure_degrades (d : Dashboard)
    (f : FetchFailure (List HistoryPoint)) :
    ((fetchPostHistory f.toResult).exec d).postHistory = [] ∧
    ((fetchPostHistory f.toResult).exec d).error = d.error ∧
    ((fetchPostHistory f.toResult).exec d).loading = d.loading ∧
    ((fetchPostHistory f.toResult).exec d).posts = d.posts ∧
    ((fetchPostHistory f.toResult).exec d).selectedPost = d.selectedPost ∧
    (fetchPostHistory f.toResult).result d = .ok () := by
  cases f <;> exact ⟨rfl, rfl, rfl, rfl, rfl, rfl⟩

/-- C5: running `fetchPosts` (the hook's `refreshData`) to completion twice
with the same response gives the same state as running it once, and with a
successful response `posts` is the decoded list, not the list twice. -/
theorem refresh_twice_eq_once (d : Dashboard) (h : HookState) (r : FetchResult (List Post))
    (data : List Post) :
    (fetchPosts r).exec ((fetchPosts r).exec d) = (fetchPosts r).exec d ∧
    ((fetchPosts (.success data)).exec ((fetchPosts (.success data)).exec d)).posts = data ∧
    (useFacebookData.refreshData r).exec ((useFacebookData.refreshData r).exec h) =
      (useFacebookData.refreshData r).exec h ∧
    ((useFacebookData.refreshData (.success data)).exec
      ((useFacebookData.refreshData (.success data)).exec h)).posts = data := by
  rcases r with e | ⟨ok, j⟩
  · exact ⟨rfl, rfl, rfl, rfl⟩
  · cases ok <;> cases j <;> exact ⟨rfl, rfl, rfl, rfl⟩

/-- C6: after `handlePostSelect(post)` and the settling of the request it
issued with a list `h`, `postHistory` is `h` and `post` is selected; this
holds in whatever state the response arrives.  The chart data has the
length of `h` and its i-th `sentiment` is the i-th `average_sentiment`.
In the example scenario `postHistory` is the two-point history, in order. -/
theorem history_success_preserves_content_and_order (a : App) (post : Post)
    (h : List HistoryPoint) (d : Dashboard) (toLocaleString : String → String) (i : ℕ) :
    (step (a.handlePostSelect post) (.historySettled a.inflight.length (.success h))).map
        (fun b => (b.dash.selectedPost, b.dash.postHistory)) = some (some post, h) ∧
    ((fetchPostHistory (.success h)).exec d).postHistory = h ∧
    ((handlePostSelect post (.success h)).exec d).selectedPost = some post ∧
    ((handlePostSelect post (.success h)).exec d).postHistory = h ∧
    (chartData toLocaleString h).length = h.length ∧
    ((chartData toLocaleString h)[i]?).map ChartPoint.sentiment =
      (h[i]?).map HistoryPoint.average_sentiment ∧
    (run App.initial
        [.mount, .postsSettled 0 (.success [examplePost]), .clickPost examplePost,
          .historySettled 0 (.success exampleHistory)]).map (fun b => b.dash.postHistory) =
      some exampleHistory ∧
    exampleHistory.length = 2 := by
  refine ⟨?_, rfl, rfl, rfl, ?_, ?_, by decide, rfl⟩
  · simp only [step, App.handlePostSelect, getElem?_append_single, eraseIdx_append_single,
      Option.map_some']
    rfl
  · simp [chartData]
  · cases hi : h[i]? <;> simp [chartData, hi]

/-- C7: `handlePostSelect(post)` selects exactly `post`, puts exactly one
request in flight, and leaves `loading`, `error` and `posts` unchanged.
The request is for the history of `post.post_id`: its URL is the base URL
followed by `/posts/`, the post id and `/history`, and the URLs of two
post ids are equal only when the ids are.  The later settling of a history
request, in success or failure, leaves `loading`, `error`, `posts` and
`selectedPost` unchanged too.  For the example post the one request is the
one for `/posts/1/history`. -/
theorem handlePostSelect_frame (a : App) (post : Post) (d : Dashboard)
    (r : FetchResult (List HistoryPoint)) (postId : String) :
    (a.handlePostSelect post).dash.selectedPost = some post ∧
    (a.handlePostSelect post).inflight =
      a.inflight ++ [{ url := historyUrl post.post_id, awaiter := .fetchPostHistory }] ∧
    (a.handlePostSelect post).inflight.length = a.inflight.length + 1 ∧
    historyUrl post.post_id =
      "https://jktob6rblf.execute-api.ap-southeast-1.amazonaws.com//posts/" ++ post.post_id ++
        "/history" ∧
    (historyUrl post.post_id = historyUrl postId ↔ post.post_id = postId) ∧
    (App.initial.handlePostSelect examplePost).inflight =
      [{ url := "https://jktob6rblf.execute-api.ap-southeast-1.amazonaws.com//posts/1/history",
         awaiter := .fetchPostHistory }] ∧
    (a.handlePostSelect post).dash.loading = a.dash.loading ∧
    (a.handlePostSelect post).dash.error = a.dash.error ∧
    (a.handlePostSelect post).dash.posts = a.dash.posts ∧
    ((fetchPostHistory r).exec d).loading = d.loading ∧
    ((fetchPostHistory r).exec d).error = d.error ∧
    ((fetchPostHistory r).exec d).posts = d.posts ∧
    ((fetchPostHistory r).exec d).selectedPost = d.selectedPost := by
  have hlen : (a.handlePostSelect post).inflight.length = a.inflight.length + 1 := by
    simp [App.handlePostSelect]
  have hurl : historyUrl post.post_id =
      "https://jktob6rblf.execute-api.ap-southeast-1.amazonaws.com//posts/" ++ post.post_id ++
        "/history" := by
    have hbase : API_URL ++ "/posts/" =
        "https://jktob6rblf.execute-api.ap-southeast-1.amazonaws.com//posts/" := by decide
    simp only [historyUrl, hbase]
  have hinj : historyUrl post.post_id = historyUrl postId ↔ post.post_id = postId :=
    ⟨historyUrl_injective _ _, fun hp => by rw [hp]⟩
  have hex : (App.initial.handlePostSelect examplePost).inflight =
      [{ url := "https://jktob6rblf.execute-api.ap-southeast-1.amazonaws.com//posts/1/history",
         awaiter := .fetchPostHistory }] := by decide
  rcases r with e | ⟨ok, j⟩
  · exact ⟨rfl, rfl, hlen, hurl, hinj, hex, rfl, rfl, rfl, rfl, rfl, rfl, rfl⟩
  · cases ok <;> cases j <;>
      exact ⟨rfl, rfl, hlen, hurl, hinj, hex, rfl, rfl, rfl, rfl, rfl, rfl, rfl⟩

/-- C8 (counterexample): for a selected post whose `total_comments` is
missing, the first statistics card and the list item show nothing, not the
text '0.0'. -/
theorem missing_total_comments_counterexample :
    barePost.total_comments = .undefined ∧
    statCards toFixedDecimal barePost =
      .ok { total_comments := .empty, average_sentiment := .text "0.0",
            sentiment_sum := .text "0.0" } ∧
    renderChild barePost.total_comments ≠ ReactChild.text "0.0" ∧
    listItemComments barePost ≠ ReactChild.text "0.0" := by
  refine ⟨rfl, rfl, ?_, ?_⟩ <;> decide

/-- C8 (amended): a missing (`undefined` or `null`) sentiment value is
displayed as '0.0', without an error.  `total_comments` has no default: a
JSX child is rendered as it is (nothing for a missing value, the number for
a number, the text for a string), the list item shows `total_comments` so,
and a missing `total_comments` shows nothing there.  For every selected
post whose `average_sentiment` and `sentiment_sum` are not strings, the
statistics cards render without an error: `total_comments` is shown as it
is, the same as in the list item, and is nothing when missing, and a
missing `average_sentiment` or `sentiment_sum` is shown as '0.0'. -/
theorem missing_sentiment_defaults (toFixed : ℚ → ℕ → String) (post : Post)
    (havg : ∀ s, post.average_sentiment ≠ .string s)
    (hsum : ∀ s, post.sentiment_sum ≠ .string s) :
    sentimentText toFixed .undefined = .ok (.text "0.0") ∧
    sentimentText toFixed .null = .ok (.text "0.0") ∧
    renderChild .undefined = .empty ∧
    renderChild .null = .empty ∧
    (∀ x, renderChild (.number x) = .number x) ∧
    (∀ s, renderChild (.string s) = .text s) ∧
    listItemComments post = renderChild post.total_comments ∧
    (post.total_comments = .undefined ∨ post.total_comments = .null →
      listItemComments post = .empty) ∧
    (∀ x, post.total_comments = .number x → listItemComments post = .number x) ∧
    ∃ cards, statCards toFixed post = .ok cards ∧
      cards.total_comments = renderChild post.total_comments ∧
      cards.total_comments = listItemComments post ∧
      (post.total_comments = .undefined ∨ post.total_comments = .null →
        cards.total_comments = .empty) ∧
      (∀ x, post.total_comments = .number x → cards.total_comments = .number x) ∧
      (post.average_sentiment = .undefined ∨ post.average_sentiment = .null →
        cards.average_sentiment = .text "0.0") ∧
      (post.sentiment_sum = .undefined ∨ post.sentiment_sum = .null →
        cards.sentiment_sum = .text "0.0") := by
  obtain ⟨id, content, created, total, avg, sum⟩ := post
  have hmiss : total = .undefined ∨ total = .null → renderChild total = .empty := by
    rintro (rfl | rfl) <;> rfl
  have hnum : ∀ x, total = .number x → renderChild total = .number x := by
    rintro x rfl
    rfl
  refine ⟨rfl, rfl, rfl, rfl, fun _ => rfl, fun _ => rfl, rfl, hmiss, hnum, ?_⟩
  cases avg with
  | string s => exact absurd rfl (havg s)
  | undefined =>
    cases sum with
    | string s => exact absurd rfl (hsum s)
    | undefined => exact ⟨_, rfl, rfl, rfl, hmiss, hnum, fun _ => rfl, fun _ => rfl⟩
    | null => exact ⟨_, rfl, rfl, rfl, hmiss, hnum, fun _ => rfl, fun _ => rfl⟩
    | number y => exact ⟨_, rfl, rfl, rfl, hmiss, hnum, fun _ => rfl, fun h => by simp at h⟩
  | null =>
    cases sum with
    | string s => exact absurd rfl (hsum s)
    | undefined => exact ⟨_, rfl, rfl, rfl, hmiss, hnum, fun _ => rfl, fun _ => rfl⟩
    | null => exact ⟨_, rfl, rfl, rfl, hmiss, hnum, fun _ => rfl, fun _ => rfl⟩
    | number y => exact ⟨_, rfl, rfl, rfl, hmiss, hnum, fun _ => rfl, fun h => by simp at h⟩
  | number x =>
    cases sum with
    | string s => exact absurd rfl (hsum s)
    | undefined => exact ⟨_, rfl, rfl, rfl, hmiss, hnum, fun h => by simp at h, fun _ => rfl⟩
    | null => exact ⟨_, rfl, rfl, rfl, hmiss, hnum, fun h => by simp at h, fun _ => rfl⟩
    | number y =>
      exact ⟨_, rfl, rfl, rfl, hmiss, hnum, fun h => by simp at h, fun h => by simp at h⟩

/-- C8 (amended) at the post whose numeric fields are all missing, with the
sample `toFixed`. -/
theorem missing_sentiment_defaults_witness :
    (∀ s, barePost.average_sentiment ≠ .string s) ∧
    (∀ s, barePost.sentiment_sum ≠ .string s) ∧
    (sentimentText toFixedDecimal .undefined = .ok (.text "0.0") ∧
      sentimentText toFixedDecimal .null = .ok (.text "0.0") ∧
      renderChild .undefined = .empty ∧
      renderChild .null = .empty ∧
      (∀ x, renderChild (.number x) = .number x) ∧
      (∀ s, renderChild (.string s) = .text s) ∧
      listItemComments barePost = renderChild barePost.total_comments ∧
      (barePost.total_comments = .undefined ∨ barePost.total_comments = .null →
        listItemComments barePost = .empty) ∧
      (∀ x, barePost.total_comments = .number x → listItemComments barePost = .number x) ∧
      ∃ cards, statCards toFixedDecimal barePost = .ok cards ∧
        cards.total_comments = renderChild barePost.total_comments ∧
        cards.total_comments = listItemComments barePost ∧
        (barePost.total_comments = .undefined ∨ barePost.total_comments = .null →
          cards.total_comments = .empty) ∧
        (∀ x, barePost.total_comments = .number x → cards.total_comments = .number x) ∧
        (barePost.average_sentiment = .undefined ∨ barePost.average_sentiment = .null →
          cards.average_sentiment = .text "0.0") ∧
        (barePost.sentiment_sum = .undefined ∨ barePost.sentiment_sum = .null →
          cards.sentiment_sum = .text "0.0")) :=
  have havg : ∀ s, barePost.average_sentiment ≠ .string s := fun _ h => JsValue.noConfusion h
  have hsum : ∀ s, barePost.sentiment_sum ≠ .string s := fun _ h => JsValue.noConfusion h
  ⟨havg, hsum, missing_sentiment_defaults toFixedDecimal barePost havg hsum⟩

/-- C9 (counterexample): the example post is selected and its two-point
history is loaded; then the refresh button is clicked and the refresh
succeeds.  The post is still selected and the history is still there. -/
theorem refresh_keeps_selection_counterexample :
    (run App.initial
        [.mount, .postsSettled 0 (.success [examplePost]), .clickPost examplePost,
          .historySettled 0 (.success exampleHistory), .clickFetchPosts,
          .postsSettled 0 (.success [examplePost])]).map
        (fun a => (a.dash.selectedPost, a.dash.postHistory)) =
      some (some examplePost, exampleHistory) ∧
    some examplePost ≠ none ∧
    exampleHistory ≠ [] := by
  decide

/-- C9 (amended): a post refresh, whether it succeeds or fails, leaves
`selectedPost` and `postHistory` as they were. -/
theorem fetchPosts_keeps_selection_and_history (d : Dashboard) (r : FetchResult (List Post)) :
    ((fetchPosts r).exec d).selectedPost = d.selectedPost ∧
    ((fetchPosts r).exec d).postHistory = d.postHistory := by
  rcases r with e | ⟨ok, j⟩
  · exact ⟨rfl, rfl⟩
  · cases ok <;> cases j <;> exact ⟨rfl, rfl⟩

/-- C10: the initial state of the component is `posts = []`,
`postHistory = []`, `loading = true`, `error = none`, `selectedPost =
none`, that of the hook is `posts = []`, `loading = true`, `error = none`,
and starting the initial fetch leaves both states as they are (the
component then has the `/posts` request in flight). -/
theorem initial_state_before_any_fetch_resolves :
    SimpleDashboard.initial.posts = [] ∧
    SimpleDashboard.initial.postHistory = [] ∧
    SimpleDashboard.initial.loading = true ∧
    SimpleDashboard.initial.error = none ∧
    SimpleDashboard.initial.selectedPost = none ∧
    fetchPostsStart.exec SimpleDashboard.initial = SimpleDashboard.initial ∧
    step App.initial .mount =
      some { dash := SimpleDashboard.initial,
             inflight := [{ url := postsUrl, awaiter := .fetchPosts }] } ∧
    useFacebookData.initial.posts = [] ∧
    useFacebookData.initial.loading = true ∧
    useFacebookData.initial.error = none ∧
    useFacebookData.fetchPostsStart.exec useFacebookData.initial = useFacebookData.initial := by
  exact ⟨rfl, rfl, rfl, rfl, rfl, rfl, rfl, rfl, rfl, rfl, rfl⟩

end FacebookAnalytics
